import Mathlib

/-!
Verification of the watch-progress reconciliation subsystem of a personal
anime-tracking backend.  The definitions below are shallow embeddings of the
Python services in src/backend/app/services (anidb_mapping_service.py,
jellyfin_service.py, sync_service.py, anime_list_service.py): pure functions
become Lean functions, the database session becomes explicit state passing,
fallible code returns Except / Option, Python floats and Decimals become ℚ,
and Python truthiness of optional fields is modelled explicitly.
-/

namespace Anime

/-- Python truthiness of an optional non-negative integer field:
None and 0 are both falsy. -/
def natTruthy : Option Nat → Bool
  | none => false
  | some n => n != 0

/-- Python truthiness of an optional integer field: None and 0 are falsy. -/
def intTruthy : Option Int → Bool
  | none => false
  | some z => z != 0

/-- Python truthiness of an optional string field: None and "" are falsy. -/
def strTruthy : Option String → Bool
  | none => false
  | some s => s != ""

/-- Python round(x, 2) on exact rationals: round to the nearest multiple of
1/100, ties to the even multiple (banker's rounding). -/
def pyRound2 (q : ℚ) : ℚ :=
  let y := q * 100
  let n := ⌊y⌋
  let r := y - n
  if r < 1/2 then (n : ℚ) / 100
  else if 1/2 < r then ((n : ℚ) + 1) / 100
  else if n % 2 = 0 then (n : ℚ) / 100 else ((n : ℚ) + 1) / 100

/-! ## Confidence scorer (anidb_mapping_service.calculate_confidence_score) -/

/-- Separator predicate of Python str.split() with no argument. -/
def isWs (c : Char) : Bool := c.isWhitespace

/-- Python str.strip(): drop whitespace from both ends of a character list. -/
def stripWs (l : List Char) : List Char :=
  ((l.dropWhile isWs).reverse.dropWhile isWs).reverse

/-- Helper for splitWs: accumulates the current (reversed) word. -/
def splitWsAux : List Char → List Char → List (List Char)
  | [], acc => if acc = [] then [] else [acc.reverse]
  | c :: cs, acc =>
    if isWs c then
      if acc = [] then splitWsAux cs [] else acc.reverse :: splitWsAux cs []
    else splitWsAux cs (c :: acc)

/-- Python str.split() with no separator: the maximal runs of non-whitespace
characters, in order, with no empty words. -/
def splitWs (l : List Char) : List (List Char) := splitWsAux l []

/-- The title normalisation used by the scorer: lower() then strip(),
as a character list. -/
def normTitle (s : String) : List Char := stripWs (s.toList.map Char.toLower)

/-- The auxiliary factors dictionary of calculate_confidence_score:
an absent key behaves as false / 0. -/
structure AuxFactors where
  episode_count_match : Bool := false
  year_difference : Int := 0

/-- Shallow embedding of AniDBMappingService.calculate_confidence_score.
Mirrors the source line by line: the empty-title guard returns 0.0 before any
normalisation; exact match 1.0; substring containment (either direction) 0.8;
otherwise the Jaccard similarity of the word sets, with an early return of 0.0
when either word set is empty, then the auxiliary adjustments, rounded to two
decimals. -/
def calculate_confidence_score (anidb_title mal_title : String)
    (additional_factors : Option AuxFactors) : ℚ :=
  if anidb_title = "" ∨ mal_title = "" then 0
  else
    let anidb_lower := normTitle anidb_title
    let mal_lower := normTitle mal_title
    if anidb_lower = mal_lower then 1
    else if anidb_lower <:+: mal_lower ∨ mal_lower <:+: anidb_lower then 4/5
    else
      let anidb_words := (splitWs anidb_lower).toFinset
      let mal_words := (splitWs mal_lower).toFinset
      if anidb_words = ∅ ∨ mal_words = ∅ then 0
      else
        let similarity : ℚ :=
          ((anidb_words ∩ mal_words).card : ℚ) / ((anidb_words ∪ mal_words).card : ℚ)
        let adjusted : ℚ :=
          match additional_factors with
          | none => similarity
          | some f =>
            let s1 := if f.episode_count_match then min 1 (similarity + 1/10) else similarity
            if f.year_difference > 5 then max 0 (s1 - 1/5) else s1
        pyRound2 adjusted

/-- Modelled from the claim's reference definition of the score (the spec's
words): after lowercasing and trimming, 1.0 on exact match, 0.8 on substring
containment in either direction, otherwise the Jaccard similarity of the
whitespace-tokenised word sets (0.0 if either set is empty), then the
auxiliary adjustments, rounded to two decimals.  Unlike the source it has no
guard returning 0.0 when either raw title is empty. -/
def calculate_confidence_score_spec (titleA titleB : String)
    (auxFactors : Option AuxFactors) : ℚ :=
  let a := normTitle titleA
  let b := normTitle titleB
  if a = b then 1
  else if a <:+: b ∨ b <:+: a then 4/5
  else
    let wa := (splitWs a).toFinset
    let wb := (splitWs b).toFinset
    let jac : ℚ := if wa = ∅ ∨ wb = ∅ then 0
      else ((wa ∩ wb).card : ℚ) / ((wa ∪ wb).card : ℚ)
    let adj : ℚ :=
      match auxFactors with
      | none => jac
      | some f =>
        let s1 := if f.episode_count_match then min 1 (jac + 1/10) else jac
        if f.year_difference > 5 then max 0 (s1 - 1/5) else s1
    pyRound2 adj

/-! ## User anime list entries and MAL-side list statuses -/

/-- Calendar dates are abstracted to an opaque comparable value (the embedding
never needs their internal structure, only equality). -/
abbrev DateV := Int

/-- Shallow embedding of a persisted UserAnimeList row.  status is optional
because a freshly constructed row has no status until one is assigned;
episodes_watched is a non-negative integer (non_negative_episodes check
constraint). -/
structure UserAnimeListE where
  status : Option String := none
  score : Option Int := none
  episodes_watched : Nat := 0
  start_date : Option DateV := none
  finish_date : Option DateV := none
  notes : Option String := none
deriving DecidableEq, Repr

/-- Shallow embedding of the MAL list_status dictionary consumed by
SyncService._resolve_list_conflicts.  Date fields stay as raw strings, parsed
by a strptime oracle. -/
structure MalListStatus where
  status : Option String := none
  score : Option Int := none
  num_episodes_watched : Option Nat := none
  start_date : Option String := none
  finish_date : Option String := none
  comments : Option String := none

/-- Status block of _resolve_list_conflicts: the remote status wins when
truthy and different from the local one (MAL is source of truth). -/
def resolveStatusStep (mal_data : MalListStatus) (st : UserAnimeListE × Nat) :
    UserAnimeListE × Nat :=
  match mal_data.status with
  | some s =>
    if s ≠ "" ∧ some s ≠ st.1.status then
      ({ st.1 with status := some s }, st.2 + 1)
    else st
  | none => st

/-- Score block of _resolve_list_conflicts: the remote score wins only when
truthy, different from the local one, and strictly positive. -/
def resolveScoreStep (mal_data : MalListStatus) (st : UserAnimeListE × Nat) :
    UserAnimeListE × Nat :=
  match mal_data.score with
  | some z =>
    if z ≠ 0 ∧ some z ≠ st.1.score then
      if z > 0 then ({ st.1 with score := some z }, st.2 + 1) else st
    else st
  | none => st

/-- Episodes block of _resolve_list_conflicts: the higher value wins, the
remote count defaulting to 0 when absent. -/
def resolveEpisodesStep (mal_data : MalListStatus) (st : UserAnimeListE × Nat) :
    UserAnimeListE × Nat :=
  let mal_episodes := mal_data.num_episodes_watched.getD 0
  if mal_episodes > st.1.episodes_watched then
    ({ st.1 with episodes_watched := mal_episodes }, st.2 + 1)
  else st

/-- Start-date block of _resolve_list_conflicts: the remote date wins when
present, parseable (parseDate models strptime; none is a swallowed
ValueError) and different. -/
def resolveStartDateStep (parseDate : String → Option DateV)
    (mal_data : MalListStatus) (st : UserAnimeListE × Nat) :
    UserAnimeListE × Nat :=
  match mal_data.start_date with
  | some ds =>
    match parseDate ds with
    | some d =>
      if some d ≠ st.1.start_date then
        ({ st.1 with start_date := some d }, st.2 + 1)
      else st
    | none => st
  | none => st

/-- Finish-date block of _resolve_list_conflicts, same rule as the start
date. -/
def resolveFinishDateStep (parseDate : String → Option DateV)
    (mal_data : MalListStatus) (st : UserAnimeListE × Nat) :
    UserAnimeListE × Nat :=
  match mal_data.finish_date with
  | some ds =>
    match parseDate ds with
    | some d =>
      if some d ≠ st.1.finish_date then
        ({ st.1 with finish_date := some d }, st.2 + 1)
      else st
    | none => st
  | none => st

/-- Comments block of _resolve_list_conflicts: the remote comments are adopted
only when truthy and the local notes are falsy (empty or absent). -/
def resolveNotesStep (mal_data : MalListStatus) (st : UserAnimeListE × Nat) :
    UserAnimeListE × Nat :=
  if strTruthy mal_data.comments ∧ ¬ strTruthy st.1.notes then
    ({ st.1 with notes := mal_data.comments }, st.2 + 1)
  else st

/-- Shallow embedding of SyncService._resolve_list_conflicts: the six field
blocks applied in source order to the local entry, starting from a
conflicts_resolved counter of 0, returning the updated entry and the
counter. -/
def resolve_list_conflicts (parseDate : String → Option DateV)
    (user_list : UserAnimeListE) (mal_data : MalListStatus) :
    UserAnimeListE × Nat :=
  resolveNotesStep mal_data
    (resolveFinishDateStep parseDate mal_data
      (resolveStartDateStep parseDate mal_data
        (resolveEpisodesStep mal_data
          (resolveScoreStep mal_data
            (resolveStatusStep mal_data (user_list, 0))))))

/-! ## Jellyfin webhook progress application
(jellyfin_service.update_anime_list_from_activity) -/

/-- Shallow embedding of the Anime row fields the progress applier reads. -/
structure AnimeE where
  mal_id : Nat
  episodes : Option Nat := none
deriving DecidableEq, Repr

/-- Shallow embedding of a JellyfinActivity row. -/
structure JellyfinActivityE where
  user_id : Nat := 0
  anidb_id : Option Nat := none
  mal_id : Option Nat := none
  episode_number : Option Nat := none
  completion_percentage : Option ℚ := none
  processed : Bool := false
deriving DecidableEq, Repr

/-- The completion-threshold test of update_anime_list_from_activity: the
episode counts as watched when the completion percentage is absent or at
least 80. -/
def completionOk : Option ℚ → Bool
  | none => true
  | some c => decide (80 ≤ c)

/-- The database lookups and fallible sub-calls of
update_anime_list_from_activity, passed explicitly: whether the activity's
user row exists, the Anime row found for the activity's MAL id, the existing
UserAnimeList row for (user, anime), and whether the two anime_list_service
calls (update_episode_progress, and the completed-status update_anime_status)
succeed rather than raise. -/
structure UpdateEnv where
  userFound : Bool := true
  anime : Option AnimeE := none
  entry : Option UserAnimeListE := none
  progressUpdateOk : Bool := true
  statusUpdateOk : Bool := true
deriving Repr

/-- Shallow embedding of JellyfinService.update_anime_list_from_activity.
Returns the value of the Python function (None on failure, otherwise the
number of episodes advanced) together with the resulting state of the user's
list entry (none when the early guards fire before the entry is looked up or
created).  Mirrors the source: falsy mal_id or episode_number, a missing
user, or a missing Anime row return None; a missing entry is created with
status watching and 0 episodes watched; progress advances only when the
episode number strictly exceeds the current count and the completion
percentage is absent or at least the 80 threshold; the completed status is
set when the anime's total episode count is truthy and reached; an exception
from either list update returns None, keeping whatever had already been
committed. -/
def update_anime_list_from_activity (env : UpdateEnv)
    (activity : JellyfinActivityE) : Option Nat × Option UserAnimeListE :=
  match activity.mal_id, activity.episode_number with
  | some mal_id, some ep =>
    if mal_id = 0 ∨ ep = 0 then (none, env.entry)
    else if ¬ env.userFound then (none, env.entry)
    else
      match env.anime with
      | none => (none, env.entry)
      | some anime =>
        let user_anime := env.entry.getD
          { status := some "watching", episodes_watched := 0 }
        if ep > user_anime.episodes_watched then
          if completionOk activity.completion_percentage then
            if env.progressUpdateOk then
              let ua1 := { user_anime with episodes_watched := ep }
              let delta := ep - user_anime.episodes_watched
              match anime.episodes with
              | some total =>
                if total ≠ 0 ∧ ep ≥ total then
                  if env.statusUpdateOk then
                    (some delta, some { ua1 with status := some "completed" })
                  else (none, some ua1)
                else (some delta, some ua1)
              | none => (some delta, some ua1)
            else (none, some user_anime)
          else (some 0, some user_anime)
        else (some 0, some user_anime)
  | _, _ => (none, env.entry)

/-! ## Local update with remote push
(anime_list_service.update_anime_status) -/

/-- Shallow embedding of the AnimeListItemUpdate schema: none marks a field
absent from model_dump(exclude_unset=True). -/
structure AnimeListItemUpdate where
  status : Option String := none
  score : Option Int := none
  episodes_watched : Option Nat := none
  start_date : Option DateV := none
  finish_date : Option DateV := none
  notes : Option String := none
deriving DecidableEq, Repr

/-- The setattr loop of update_anime_status: every field present in the
update overwrites the entry's field. -/
def applyItemUpdate (e : UserAnimeListE) (u : AnimeListItemUpdate) :
    UserAnimeListE :=
  { status := match u.status with | some s => some s | none => e.status
    score := match u.score with | some z => some z | none => e.score
    episodes_watched := match u.episodes_watched with
      | some n => n
      | none => e.episodes_watched
    start_date := match u.start_date with | some d => some d | none => e.start_date
    finish_date := match u.finish_date with | some d => some d | none => e.finish_date
    notes := match u.notes with | some s => some s | none => e.notes }

/-- Observable events of update_anime_status, in execution order: the local
database commit, the attempted push to MAL, and its outcome (a failure is
only logged as a warning). -/
inductive PushEv where
  | commitLocal : PushEv
  | pushAttempt : PushEv
  | pushOk : PushEv
  | pushWarn (msg : String) : PushEv
deriving DecidableEq, Repr

/-- Shallow embedding of AnimeListService.update_anime_status.  The push
oracle stands for the whole MAL block (ensure_valid_token plus
update_anime_list_status): its failure is caught and only printed.  The
function raises (returns .error) only when the entry is missing; otherwise it
returns the updated entry together with the ordered event trace. -/
def update_anime_status (item : Option UserAnimeListE)
    (update_data : AnimeListItemUpdate) (sync_to_mal has_mal_token : Bool)
    (push : Except String Unit) :
    Except String (UserAnimeListE × List PushEv) :=
  match item with
  | none => .error "Anime not found in user's list"
  | some e =>
    let e1 := applyItemUpdate e update_data
    if sync_to_mal && has_mal_token then
      match push with
      | .ok _ => .ok (e1, [.commitLocal, .pushAttempt, .pushOk])
      | .error msg => .ok (e1, [.commitLocal, .pushAttempt, .pushWarn msg])
    else .ok (e1, [.commitLocal])

/-! ## AniDB mapping store (anidb_mapping_service) -/

/-- Shallow embedding of an AniDBMapping row. -/
structure AniDBMappingE where
  anidb_id : Nat
  mal_id : Option Nat := none
  title : Option String := none
  confidence_score : Option ℚ := none
  source : String := "manual"
deriving DecidableEq, Repr

/-- Shallow embedding of AniDBMappingService.get_mapping_by_anidb_id: first
row with the given AniDB id. -/
def get_mapping_by_anidb_id (db : List AniDBMappingE) (anidb_id : Nat) :
    Option AniDBMappingE :=
  db.find? (fun m => m.anidb_id == anidb_id)

/-- Shallow embedding of AniDBMappingService.get_mal_id_from_anidb_id. -/
def get_mal_id_from_anidb_id (db : List AniDBMappingE) (anidb_id : Nat) :
    Option Nat :=
  match get_mapping_by_anidb_id db anidb_id with
  | some mapping => mapping.mal_id
  | none => none

/-- Shallow embedding of AniDBMappingService.create_mapping: raises a
ValueError when a row with the AniDB id already exists, otherwise inserts and
returns the new row together with the new table state. -/
def create_mapping (db : List AniDBMappingE) (anidb_id : Nat)
    (mal_id : Option Nat) (title : Option String)
    (confidence_score : Option ℚ) (source : String) :
    Except String (AniDBMappingE × List AniDBMappingE) :=
  match get_mapping_by_anidb_id db anidb_id with
  | some _ => .error "Mapping for AniDB ID already exists"
  | none =>
    let mapping : AniDBMappingE :=
      { anidb_id := anidb_id, mal_id := mal_id, title := title,
        confidence_score := confidence_score, source := source }
    .ok (mapping, db ++ [mapping])

/-- The dictionary returned by get_mapping_statistics. -/
structure MappingStats where
  total_mappings : Nat
  mapped_count : Nat
  unmapped_count : Nat
  manual_count : Nat
  auto_count : Nat
  github_count : Nat
  average_confidence : Option ℚ
deriving DecidableEq, Repr

/-- Shallow embedding of AniDBMappingService.get_mapping_statistics.  The
final average follows the source's truthiness test: round(avg, 2) is returned
only when avg_confidence_score is truthy, so both no scored rows and a mean
of exactly 0.0 yield None. -/
def get_mapping_statistics (db : List AniDBMappingE) : MappingStats :=
  let total_mappings := db.length
  let mapped_count := (db.filter (fun m => m.mal_id.isSome)).length
  let scores := db.filterMap (fun m => m.confidence_score)
  let avg_confidence_score : Option ℚ :=
    if scores ≠ [] then some (scores.sum / scores.length) else none
  { total_mappings := total_mappings
    mapped_count := mapped_count
    unmapped_count := total_mappings - mapped_count
    manual_count := (db.filter (fun m => m.source == "manual")).length
    auto_count := (db.filter (fun m => m.source == "auto")).length
    github_count := (db.filter (fun m => m.source == "github_file")).length
    average_confidence :=
      match avg_confidence_score with
      | some a => if a ≠ 0 then some (pyRound2 a) else none
      | none => none }

/-! ## Webhook processing (jellyfin_service.process_webhook) -/

/-- The WebhookProcessingResult fields the claims observe. -/
structure WebhookResultE where
  success : Bool
  message : String
  anidb_id : Option Nat := none
  mal_id : Option Nat := none
  episodes_updated : Nat := 0
  errors : List String := []
deriving DecidableEq, Repr

/-- The payload data process_webhook consumes after extraction: the series
title used for placeholder mappings, and the episode number and completion
percentage that go into the activity record (the tick arithmetic of
calculate_episode_progress is abstracted into the completion value). -/
structure WebhookPayloadE where
  series_title : Option String := none
  episode_number : Option Nat := none
  completion_percentage : Option ℚ := none
deriving DecidableEq, Repr

/-- The database lookups process_webhook performs, passed explicitly: the
user id found for the payload's username, the AniDB id extracted from the
payload, the mapping table, and the lookups and sub-call outcomes consumed by
update_anime_list_from_activity. -/
structure WebhookEnv where
  userId : Option Nat := none
  extractedAnidbId : Option Nat := none
  mappings : List AniDBMappingE := []
  anime : Option AnimeE := none
  entry : Option UserAnimeListE := none
  progressUpdateOk : Bool := true
  statusUpdateOk : Bool := true
deriving Repr

/-- Shallow embedding of JellyfinService.process_webhook.  Returns the
processing result, the stored activity record (none when processing stops
before the activity is created), and the mapping table afterwards.  Mirrors
the source: missing user and missing AniDB id return early failures; a
missing MAL mapping creates an unmapped placeholder via create_mapping and
returns the no-mapping failure — but when create_mapping raises because a row
already exists, the exception reaches the top-level handler, which returns
the generic error-processing result instead; otherwise the activity is
recorded, update_anime_list_from_activity runs, and the activity is marked
processed unconditionally before the success result is returned with
episodes_updated defaulting to 0. -/
def process_webhook (env : WebhookEnv) (p : WebhookPayloadE) :
    WebhookResultE × Option JellyfinActivityE × List AniDBMappingE :=
  match env.userId with
  | none =>
    ({ success := false, message := "User not found",
       errors := ["No user found for Jellyfin username"] }, none, env.mappings)
  | some uid =>
    match env.extractedAnidbId with
    | none =>
      ({ success := false,
         message := "Could not extract AniDB ID from webhook payload",
         errors := ["AniDB ID not found in provider_ids or metadata"] },
        none, env.mappings)
    | some anidb_id =>
      match get_mal_id_from_anidb_id env.mappings anidb_id with
      | none =>
        match create_mapping env.mappings anidb_id none p.series_title none
            "jellyfin_webhook" with
        | .error e =>
          ({ success := false, message := "Error processing webhook: " ++ e,
             errors := [e] }, none, env.mappings)
        | .ok (_, mappings2) =>
          ({ success := false,
             message := "No MyAnimeList mapping found for AniDB ID",
             anidb_id := some anidb_id,
             errors := ["AniDB ID not mapped to MyAnimeList ID"] },
            none, mappings2)
      | some mal_id =>
        let activity : JellyfinActivityE :=
          { user_id := uid, anidb_id := some anidb_id, mal_id := some mal_id,
            episode_number := p.episode_number,
            completion_percentage := p.completion_percentage,
            processed := false }
        let upd := update_anime_list_from_activity
          { userFound := true, anime := env.anime, entry := env.entry,
            progressUpdateOk := env.progressUpdateOk,
            statusUpdateOk := env.statusUpdateOk } activity
        ({ success := true, message := "Webhook processed successfully",
           anidb_id := some anidb_id, mal_id := some mal_id,
           episodes_updated := upd.1.getD 0 },
          some { activity with processed := true }, env.mappings)

/-! ## Remote list fetch loop
(sync_service._fetch_complete_user_anime_list) -/

/-- Outcome of one call to mal_service.get_user_anime_list: an exception, or
a page carrying some number of entries. -/
inductive PageResp where
  | fetchError : PageResp
  | page (items : Nat) : PageResp
deriving DecidableEq, Repr

/-- Shallow embedding of the while-True loop of
_fetch_complete_user_anime_list, with the page size fixed at the source's
limit of 100.  The responses oracle gives the outcome of the t-th call (so a
retry of the same offset consumes the next response).  An error branch sleeps
for retry_delay and continues at the same offset — the source imposes no
retry cap, so the loop is modelled with explicit fuel: none means the loop
has not finished within the given number of iterations, some gives the total
number of accumulated entries. -/
def fetch_loop (responses : Nat → PageResp) :
    Nat → Nat → Nat → Nat → Option Nat
  | 0, _, _, _ => none
  | fuel + 1, t, offset, acc =>
    match responses t with
    | .fetchError => fetch_loop responses fuel (t + 1) offset acc
    | .page n =>
      if n = 0 then some acc
      else if n < 100 then some (acc + n)
      else fetch_loop responses fuel (t + 1) (offset + 100) (acc + n)

/-- Termination of the fetch loop on a given response sequence: some finite
number of iterations completes the fetch. -/
def fetch_terminates (responses : Nat → PageResp) : Prop :=
  ∃ fuel, (fetch_loop responses fuel 0 0 0).isSome

/-- A page that fails on every attempt. -/
def alwaysFailing : Nat → PageResp := fun _ => PageResp.fetchError

/-- Responses that fail k times and then return an empty page. -/
def errorsThenEmpty (k : Nat) : Nat → PageResp :=
  fun t => if t < k then PageResp.fetchError else PageResp.page 0

/-! ## Theorems -/

/-! ### Supporting lemmas for the scorer -/

lemma dropWhile_eq_nil_of_all {p : Char → Bool} :
    ∀ l : List Char, (∀ c ∈ l.dropWhile p, p c = true) → l.dropWhile p = [] := by
  intro l h
  induction l with
  | nil => rfl
  | cons c cs ih =>
    by_cases hc : p c = true
    · rw [List.dropWhile_cons_of_pos hc] at h ⊢
      exact ih h
    · exfalso
      rw [List.dropWhile_cons_of_neg hc] at h
      exact hc (h c (List.mem_cons_self c cs))

lemma stripWs_eq_nil_of_all (l : List Char)
    (h : ∀ c ∈ stripWs l, isWs c = true) : stripWs l = [] := by
  unfold stripWs at *
  have h' : ∀ c ∈ ((l.dropWhile isWs).reverse.dropWhile isWs), isWs c = true := by
    intro c hc
    exact h c (List.mem_reverse.mpr hc)
  rw [dropWhile_eq_nil_of_all _ h']
  rfl

lemma splitWsAux_eq_nil_iff :
    ∀ (l acc : List Char),
      splitWsAux l acc = [] ↔ (acc = [] ∧ ∀ c ∈ l, isWs c = true) := by
  intro l
  induction l with
  | nil =>
    intro acc
    by_cases hacc : acc = [] <;> simp [splitWsAux, hacc]
  | cons c cs ih =>
    intro acc
    by_cases hc : isWs c = true
    · by_cases hacc : acc = []
      · simp [splitWsAux, hc, hacc, ih]
      · simp [splitWsAux, hc, hacc]
    · have : isWs c ≠ true := hc
      simp [splitWsAux, hc, ih, this]

lemma splitWs_stripWs_ne_nil (x : List Char) (h : stripWs x ≠ []) :
    splitWs (stripWs x) ≠ [] := by
  intro hnil
  have hall := (splitWsAux_eq_nil_iff (stripWs x) []).mp hnil
  exact h (stripWs_eq_nil_of_all x hall.2)

lemma normTitle_words_ne_empty (s t : String)
    (h : ¬ normTitle s <:+: normTitle t) :
    (splitWs (normTitle s)).toFinset ≠ ∅ := by
  have hne : normTitle s ≠ [] := by
    intro hnil
    exact h (hnil ▸ ⟨[], normTitle t, by simp⟩)
  have : splitWs (normTitle s) ≠ [] :=
    splitWs_stripWs_ne_nil (s.toList.map Char.toLower) hne
  simpa [List.toFinset_eq_empty_iff] using this

lemma jaccard_bounds (wa wb : Finset (List Char)) (h : wa ≠ ∅) :
    0 ≤ ((wa ∩ wb).card : ℚ) / ((wa ∪ wb).card : ℚ) ∧
      ((wa ∩ wb).card : ℚ) / ((wa ∪ wb).card : ℚ) ≤ 1 := by
  have hsub : wa ∩ wb ⊆ wa ∪ wb :=
    Finset.Subset.trans Finset.inter_subset_left Finset.subset_union_left
  have hcard : (wa ∩ wb).card ≤ (wa ∪ wb).card := Finset.card_le_card hsub
  have hpos : 0 < (wa ∪ wb).card := by
    have : wa.Nonempty := Finset.nonempty_iff_ne_empty.mpr h
    exact Finset.card_pos.mpr (this.mono Finset.subset_union_left)
  constructor
  · positivity
  · rw [div_le_one (by exact_mod_cast hpos)]
    exact_mod_cast hcard

lemma pyRound2_mem_unit (q : ℚ) (h0 : 0 ≤ q) (h1 : q ≤ 1) :
    0 ≤ pyRound2 q ∧ pyRound2 q ≤ 1 := by
  unfold pyRound2
  dsimp only
  have hy0 : (0 : ℚ) ≤ q * 100 := by linarith
  have hy100 : q * 100 ≤ 100 := by linarith
  have hn0 : (0 : ℤ) ≤ ⌊q * 100⌋ := Int.floor_nonneg.mpr hy0
  have hfle : (⌊q * 100⌋ : ℚ) ≤ q * 100 := Int.floor_le _
  have hlt : q * 100 < (⌊q * 100⌋ : ℚ) + 1 := Int.lt_floor_add_one _
  have hn100 : ⌊q * 100⌋ ≤ 100 := by
    have : (⌊q * 100⌋ : ℚ) ≤ 100 := le_trans hfle hy100
    exact_mod_cast this
  have hn0Q : (0 : ℚ) ≤ (⌊q * 100⌋ : ℚ) := by exact_mod_cast hn0
  have hn100Q : (⌊q * 100⌋ : ℚ) ≤ 100 := by exact_mod_cast hn100
  split_ifs with hlt2 hgt2 hev
  · constructor <;> [positivity; linarith]
  · have hn99 : (⌊q * 100⌋ : ℚ) ≤ 99 := by
      have h1 : (⌊q * 100⌋ : ℚ) + 1/2 < q * 100 := by linarith
      have h2 : (⌊q * 100⌋ : ℚ) < 199/2 := by linarith
      have h3 : ⌊q * 100⌋ ≤ 99 := by
        by_contra hcon
        push_neg at hcon
        have : (100 : ℚ) ≤ (⌊q * 100⌋ : ℚ) := by exact_mod_cast hcon
        linarith
      exact_mod_cast h3
    constructor <;> [positivity; linarith]
  · constructor <;> [positivity; linarith]
  · have heq : q * 100 - (⌊q * 100⌋ : ℚ) = 1/2 := le_antisymm (not_lt.mp hgt2) (not_lt.mp hlt2)
    have hn99 : (⌊q * 100⌋ : ℚ) ≤ 99 := by
      have h2 : (⌊q * 100⌋ : ℚ) ≤ 199/2 := by linarith
      have h3 : ⌊q * 100⌋ ≤ 99 := by
        by_contra hcon
        push_neg at hcon
        have : (100 : ℚ) ≤ (⌊q * 100⌋ : ℚ) := by exact_mod_cast hcon
        linarith
      exact_mod_cast h3
    constructor <;> [positivity; linarith]

lemma conf_score_eq_spec (a b : String) (f : Option AuxFactors) :
    calculate_confidence_score a b f =
      if a = "" ∨ b = "" then 0 else calculate_confidence_score_spec a b f := by
  by_cases hab : a = "" ∨ b = ""
  · simp [calculate_confidence_score, hab]
  · rw [if_neg hab]
    unfold calculate_confidence_score calculate_confidence_score_spec
    rw [if_neg hab]
    dsimp only
    by_cases heq : normTitle a = normTitle b
    · rw [if_pos heq, if_pos heq]
    · rw [if_neg heq, if_neg heq]
      by_cases hinf : normTitle a <:+: normTitle b ∨ normTitle b <:+: normTitle a
      · rw [if_pos hinf, if_pos hinf]
      · rw [if_neg hinf, if_neg hinf]
        push_neg at hinf
        have hA := normTitle_words_ne_empty a b hinf.1
        have hB := normTitle_words_ne_empty b a hinf.2
        have hor : ¬ ((splitWs (normTitle a)).toFinset = ∅ ∨
            (splitWs (normTitle b)).toFinset = ∅) := by
          rintro (h | h)
          · exact hA h
          · exact hB h
        rw [if_neg hor, if_neg hor]

lemma conf_score_bounds (a b : String) (f : Option AuxFactors) :
    0 ≤ calculate_confidence_score a b f ∧ calculate_confidence_score a b f ≤ 1 := by
  unfold calculate_confidence_score
  dsimp only
  by_cases hab : a = "" ∨ b = ""
  · rw [if_pos hab]
    norm_num
  · rw [if_neg hab]
    by_cases heq : normTitle a = normTitle b
    · rw [if_pos heq]
      norm_num
    · rw [if_neg heq]
      by_cases hinf : normTitle a <:+: normTitle b ∨ normTitle b <:+: normTitle a
      · rw [if_pos hinf]
        norm_num
      · rw [if_neg hinf]
        by_cases hor : (splitWs (normTitle a)).toFinset = ∅ ∨
            (splitWs (normTitle b)).toFinset = ∅
        · rw [if_pos hor]
          norm_num
        · rw [if_neg hor]
          push_neg at hor
          have hj := jaccard_bounds (splitWs (normTitle a)).toFinset
            (splitWs (normTitle b)).toFinset hor.1
          cases f with
          | none => exact pyRound2_mem_unit _ hj.1 hj.2
          | some fa =>
            dsimp only
            set s : ℚ := (((splitWs (normTitle a)).toFinset ∩
                (splitWs (normTitle b)).toFinset).card : ℚ) /
              (((splitWs (normTitle a)).toFinset ∪
                (splitWs (normTitle b)).toFinset).card : ℚ) with hs
            have h1 : 0 ≤ (if fa.episode_count_match then min 1 (s + 1/10) else s) ∧
                (if fa.episode_count_match then min 1 (s + 1/10) else s) ≤ 1 := by
              split_ifs
              · exact ⟨le_min (by norm_num) (by linarith [hj.1]), min_le_left _ _⟩
              · exact hj
            set s1 : ℚ := if fa.episode_count_match then min 1 (s + 1/10) else s with hs1
            have h2 : 0 ≤ (if fa.year_difference > 5 then max 0 (s1 - 1/5) else s1) ∧
                (if fa.year_difference > 5 then max 0 (s1 - 1/5) else s1) ≤ 1 := by
              split_ifs
              · exact ⟨le_max_left _ _, max_le (by norm_num) (by linarith [h1.2])⟩
              · exact h1
            exact pyRound2_mem_unit _ h2.1 h2.2

/-- C9 (counterexample): the claim's reference definition has no empty-title
guard, so on the pair of empty titles it yields 1.0 (exact match after
normalisation) while the source's calculate_confidence_score returns 0.0 from
its leading falsy-title guard; the two definitions therefore disagree. -/
theorem C9_confidence_score_counterexample :
    calculate_confidence_score "" "" none = 0 ∧
      calculate_confidence_score_spec "" "" none = 1 ∧
      calculate_confidence_score "" "" none ≠ calculate_confidence_score_spec "" "" none :=
  ⟨by decide, by decide, by decide⟩

/-- C9 (amended): for all title pairs and auxiliary factors the source's
calculate_confidence_score lies in [0,1], and it equals the claim's reference
definition whenever neither raw title is the empty string; on an empty title
it returns 0.0 instead (the reference definition's case of an empty word set
is unreachable, since a normalised title that survives the exact-match and
containment branches tokenises to at least one word). -/
theorem C9_confidence_score_refinement (a b : String) (f : Option AuxFactors) :
    calculate_confidence_score a b f =
        (if a = "" ∨ b = "" then 0 else calculate_confidence_score_spec a b f) ∧
      0 ≤ calculate_confidence_score a b f ∧
      calculate_confidence_score a b f ≤ 1 :=
  ⟨conf_score_eq_spec a b f, conf_score_bounds a b f⟩

/-! ### Field accounting for the conflict-resolution steps -/

@[simp] lemma resolveStatusStep_score (m : MalListStatus) (st : UserAnimeListE × Nat) :
    (resolveStatusStep m st).1.score = st.1.score := by
  unfold resolveStatusStep
  cases hms : m.status with
  | none => rfl
  | some s => by_cases h : s ≠ "" ∧ some s ≠ st.1.status <;> simp [h]

@[simp] lemma resolveStatusStep_episodes (m : MalListStatus) (st : UserAnimeListE × Nat) :
    (resolveStatusStep m st).1.episodes_watched = st.1.episodes_watched := by
  unfold resolveStatusStep
  cases hms : m.status with
  | none => rfl
  | some s => by_cases h : s ≠ "" ∧ some s ≠ st.1.status <;> simp [h]

@[simp] lemma resolveStatusStep_notes (m : MalListStatus) (st : UserAnimeListE × Nat) :
    (resolveStatusStep m st).1.notes = st.1.notes := by
  unfold resolveStatusStep
  cases hms : m.status with
  | none => rfl
  | some s => by_cases h : s ≠ "" ∧ some s ≠ st.1.status <;> simp [h]

lemma resolveStatusStep_status (m : MalListStatus) (st : UserAnimeListE × Nat) :
    (resolveStatusStep m st).1.status =
      match m.status with
      | some s => if s ≠ "" ∧ some s ≠ st.1.status then some s else st.1.status
      | none => st.1.status := by
  unfold resolveStatusStep
  cases hms : m.status with
  | none => rfl
  | some s => by_cases h : s ≠ "" ∧ some s ≠ st.1.status <;> simp [h]

@[simp] lemma resolveScoreStep_status (m : MalListStatus) (st : UserAnimeListE × Nat) :
    (resolveScoreStep m st).1.status = st.1.status := by
  unfold resolveScoreStep
  cases hms : m.score with
  | none => rfl
  | some z =>
    by_cases h : z ≠ 0 ∧ some z ≠ st.1.score
    · by_cases hz : z > 0 <;> simp [h, hz]
    · simp [h]

@[simp] lemma resolveScoreStep_episodes (m : MalListStatus) (st : UserAnimeListE × Nat) :
    (resolveScoreStep m st).1.episodes_watched = st.1.episodes_watched := by
  unfold resolveScoreStep
  cases hms : m.score with
  | none => rfl
  | some z =>
    by_cases h : z ≠ 0 ∧ some z ≠ st.1.score
    · by_cases hz : z > 0 <;> simp [h, hz]
    · simp [h]

@[simp] lemma resolveScoreStep_notes (m : MalListStatus) (st : UserAnimeListE × Nat) :
    (resolveScoreStep m st).1.notes = st.1.notes := by
  unfold resolveScoreStep
  cases hms : m.score with
  | none => rfl
  | some z =>
    by_cases h : z ≠ 0 ∧ some z ≠ st.1.score
    · by_cases hz : z > 0 <;> simp [h, hz]
    · simp [h]

lemma resolveScoreStep_score (m : MalListStatus) (st : UserAnimeListE × Nat) :
    (resolveScoreStep m st).1.score =
      match m.score with
      | some z => if z ≠ 0 ∧ some z ≠ st.1.score ∧ z > 0 then some z else st.1.score
      | none => st.1.score := by
  unfold resolveScoreStep
  cases hms : m.score with
  | none => rfl
  | some z =>
    by_cases h : z ≠ 0 ∧ some z ≠ st.1.score
    · by_cases hz : z > 0
      · simp [h, hz]
      · simp [h, hz, and_assoc]
    · simp only [if_neg h]
      have : ¬ (z ≠ 0 ∧ some z ≠ st.1.score ∧ z > 0) := by
        intro hcon
        exact h ⟨hcon.1, hcon.2.1⟩
      simp [this]

@[simp] lemma resolveEpisodesStep_status (m : MalListStatus) (st : UserAnimeListE × Nat) :
    (resolveEpisodesStep m st).1.status = st.1.status := by
  unfold resolveEpisodesStep
  dsimp only
  by_cases h : m.num_episodes_watched.getD 0 > st.1.episodes_watched <;> simp [h]

@[simp] lemma resolveEpisodesStep_score (m : MalListStatus) (st : UserAnimeListE × Nat) :
    (resolveEpisodesStep m st).1.score = st.1.score := by
  unfold resolveEpisodesStep
  dsimp only
  by_cases h : m.num_episodes_watched.getD 0 > st.1.episodes_watched <;> simp [h]

@[simp] lemma resolveEpisodesStep_notes (m : MalListStatus) (st : UserAnimeListE × Nat) :
    (resolveEpisodesStep m st).1.notes = st.1.notes := by
  unfold resolveEpisodesStep
  dsimp only
  by_cases h : m.num_episodes_watched.getD 0 > st.1.episodes_watched <;> simp [h]

lemma resolveEpisodesStep_episodes (m : MalListStatus) (st : UserAnimeListE × Nat) :
    (resolveEpisodesStep m st).1.episodes_watched =
      max st.1.episodes_watched (m.num_episodes_watched.getD 0) := by
  unfold resolveEpisodesStep
  dsimp only
  by_cases h : m.num_episodes_watched.getD 0 > st.1.episodes_watched <;> simp [h] <;> omega

@[simp] lemma resolveStartDateStep_status (pd : String → Option DateV)
    (m : MalListStatus) (st : UserAnimeListE × Nat) :
    (resolveStartDateStep pd m st).1.status = st.1.status := by
  unfold resolveStartDateStep
  cases m.start_date with
  | none => rfl
  | some ds =>
    rcases hpd : pd ds with _ | d
    · simp [hpd]
    · by_cases h : some d ≠ st.1.start_date <;> simp [hpd, h]

@[simp] lemma resolveStartDateStep_score (pd : String → Option DateV)
    (m : MalListStatus) (st : UserAnimeListE × Nat) :
    (resolveStartDateStep pd m st).1.score = st.1.score := by
  unfold resolveStartDateStep
  cases m.start_date with
  | none => rfl
  | some ds =>
    rcases hpd : pd ds with _ | d
    · simp [hpd]
    · by_cases h : some d ≠ st.1.start_date <;> simp [hpd, h]

@[simp] lemma resolveStartDateStep_episodes (pd : String → Option DateV)
    (m : MalListStatus) (st : UserAnimeListE × Nat) :
    (resolveStartDateStep pd m st).1.episodes_watched = st.1.episodes_watched := by
  unfold resolveStartDateStep
  cases m.start_date with
  | none => rfl
  | some ds =>
    rcases hpd : pd ds with _ | d
    · simp [hpd]
    · by_cases h : some d ≠ st.1.start_date <;> simp [hpd, h]

@[simp] lemma resolveStartDateStep_notes (pd : String → Option DateV)
    (m : MalListStatus) (st : UserAnimeListE × Nat) :
    (resolveStartDateStep pd m st).1.notes = st.1.notes := by
  unfold resolveStartDateStep
  cases m.start_date with
  | none => rfl
  | some ds =>
    rcases hpd : pd ds with _ | d
    · simp [hpd]
    · by_cases h : some d ≠ st.1.start_date <;> simp [hpd, h]

@[simp] lemma resolveFinishDateStep_status (pd : String → Option DateV)
    (m : MalListStatus) (st : UserAnimeListE × Nat) :
    (resolveFinishDateStep pd m st).1.status = st.1.status := by
  unfold resolveFinishDateStep
  cases m.finish_date with
  | none => rfl
  | some ds =>
    rcases hpd : pd ds with _ | d
    · simp [hpd]
    · by_cases h : some d ≠ st.1.finish_date <;> simp [hpd, h]

@[simp] lemma resolveFinishDateStep_score (pd : String → Option DateV)
    (m : MalListStatus) (st : UserAnimeListE × Nat) :
    (resolveFinishDateStep pd m st).1.score = st.1.score := by
  unfold resolveFinishDateStep
  cases m.finish_date with
  | none => rfl
  | some ds =>
    rcases hpd : pd ds with _ | d
    · simp [hpd]
    · by_cases h : some d ≠ st.1.finish_date <;> simp [hpd, h]

@[simp] lemma resolveFinishDateStep_episodes (pd : String → Option DateV)
    (m : MalListStatus) (st : UserAnimeListE × Nat) :
    (resolveFinishDateStep pd m st).1.episodes_watched = st.1.episodes_watched := by
  unfold resolveFinishDateStep
  cases m.finish_date with
  | none => rfl
  | some ds =>
    rcases hpd : pd ds with _ | d
    · simp [hpd]
    · by_cases h : some d ≠ st.1.finish_date <;> simp [hpd, h]

@[simp] lemma resolveFinishDateStep_notes (pd : String → Option DateV)
    (m : MalListStatus) (st : UserAnimeListE × Nat) :
    (resolveFinishDateStep pd m st).1.notes = st.1.notes := by
  unfold resolveFinishDateStep
  cases m.finish_date with
  | none => rfl
  | some ds =>
    rcases hpd : pd ds with _ | d
    · simp [hpd]
    · by_cases h : some d ≠ st.1.finish_date <;> simp [hpd, h]

@[simp] lemma resolveNotesStep_status (m : MalListStatus) (st : UserAnimeListE × Nat) :
    (resolveNotesStep m st).1.status = st.1.status := by
  unfold resolveNotesStep
  split <;> rfl

@[simp] lemma resolveNotesStep_score (m : MalListStatus) (st : UserAnimeListE × Nat) :
    (resolveNotesStep m st).1.score = st.1.score := by
  unfold resolveNotesStep
  split <;> rfl

@[simp] lemma resolveNotesStep_episodes (m : MalListStatus) (st : UserAnimeListE × Nat) :
    (resolveNotesStep m st).1.episodes_watched = st.1.episodes_watched := by
  unfold resolveNotesStep
  split <;> rfl

lemma resolveNotesStep_notes (m : MalListStatus) (st : UserAnimeListE × Nat) :
    (resolveNotesStep m st).1.notes =
      if strTruthy m.comments ∧ ¬ strTruthy st.1.notes then m.comments
      else st.1.notes := by
  unfold resolveNotesStep
  split <;> simp_all

/-- C3: per-field conflict resolution in _resolve_list_conflicts.  The status
takes the remote value exactly when the remote status is truthy and differs
from the local one; the score takes the remote value exactly when it is
truthy, differs from the local one and is strictly greater than 0 (so a
remote score of 0/unset never overwrites a local score); the notes adopt the
remote comments exactly when they are truthy and the local notes are
currently empty (non-empty local notes are never overwritten). -/
theorem C3_per_field_conflict_rules (parseDate : String → Option DateV)
    (ul : UserAnimeListE) (mal : MalListStatus) :
    ((resolve_list_conflicts parseDate ul mal).1.status =
        match mal.status with
        | some s => if s ≠ "" ∧ some s ≠ ul.status then some s else ul.status
        | none => ul.status) ∧
      ((resolve_list_conflicts parseDate ul mal).1.score =
        match mal.score with
        | some z => if z ≠ 0 ∧ some z ≠ ul.score ∧ z > 0 then some z else ul.score
        | none => ul.score) ∧
      ((resolve_list_conflicts parseDate ul mal).1.notes =
        if strTruthy mal.comments ∧ ¬ strTruthy ul.notes then mal.comments
        else ul.notes) := by
  unfold resolve_list_conflicts
  refine ⟨?_, ?_, ?_⟩
  · simp [resolveStatusStep_status]
  · simp [resolveScoreStep_score]
  · simp [resolveNotesStep_notes]

lemma update_activity_monotone (env : UpdateEnv) (act : JellyfinActivityE)
    (e0 e1 : UserAnimeListE) (h0 : env.entry = some e0)
    (h1 : (update_anime_list_from_activity env act).2 = some e1) :
    e0.episodes_watched ≤ e1.episodes_watched := by
  unfold update_anime_list_from_activity at h1
  rcases hm : act.mal_id with _ | m <;> rw [hm] at h1
  · rw [h0] at h1
    simp at h1
    simp [h1]
  · rcases he : act.episode_number with _ | ep <;> rw [he] at h1
    · rw [h0] at h1
      simp at h1
      simp [h1]
    · rw [h0] at h1
      dsimp only at h1
      rcases hz : env.anime with _ | anime <;> rw [hz] at h1 <;> dsimp only at h1
      · split_ifs at h1 <;> simp_all
      · rcases hte : anime.episodes with _ | total <;> rw [hte] at h1 <;>
          dsimp only at h1 <;>
          split_ifs at h1 <;>
          (cases Option.some.inj h1; simp_all [Option.getD_some]; try omega)

/-- C1: every automated update of a user list entry is monotone in
episodes_watched.  _resolve_list_conflicts sets the episode count to the
maximum of the local value and the remote num_episodes_watched (defaulting to
0), hence never decreases it; and update_anime_list_from_activity, for every
activity, lookup outcome, completion percentage and sub-call outcome, leaves
an existing entry's episodes_watched greater than or equal to its previous
value (the advance is guarded by a strict comparison). -/
theorem C1_automated_updates_monotone
    (parseDate : String → Option DateV) (ul : UserAnimeListE) (mal : MalListStatus)
    (env : UpdateEnv) (act : JellyfinActivityE) (e0 e1 : UserAnimeListE)
    (h0 : env.entry = some e0)
    (h1 : (update_anime_list_from_activity env act).2 = some e1) :
    ((resolve_list_conflicts parseDate ul mal).1.episodes_watched =
        max ul.episodes_watched (mal.num_episodes_watched.getD 0) ∧
      ul.episodes_watched ≤ (resolve_list_conflicts parseDate ul mal).1.episodes_watched) ∧
      e0.episodes_watched ≤ e1.episodes_watched := by
  refine ⟨⟨?_, ?_⟩, update_activity_monotone env act e0 e1 h0 h1⟩
  · simp [resolve_list_conflicts, resolveEpisodesStep_episodes]
  · simp [resolve_list_conflicts, resolveEpisodesStep_episodes]

/-- C1 witness: a local count of 5 against a remote count of 3 stays 5 under
reconciliation, and a webhook advance from 5 watched episodes to episode 6
does not decrease the count. -/
theorem C1_automated_updates_monotone_witness :
    ((resolve_list_conflicts (fun _ => none) { episodes_watched := 5 }
          { num_episodes_watched := some 3 }).1.episodes_watched =
        max 5 3 ∧
      5 ≤ (resolve_list_conflicts (fun _ => none) { episodes_watched := 5 }
          { num_episodes_watched := some 3 }).1.episodes_watched) ∧
      (UserAnimeListE.episodes_watched { episodes_watched := 5 } ≤
        UserAnimeListE.episodes_watched { episodes_watched := 6 }) :=
  C1_automated_updates_monotone (fun _ => none) { episodes_watched := 5 }
    { num_episodes_watched := some 3 }
    { userFound := true, anime := some ⟨100, none⟩,
      entry := some { episodes_watched := 5 },
      progressUpdateOk := true, statusUpdateOk := true }
    { mal_id := some 100, episode_number := some 6 }
    { episodes_watched := 5 } { episodes_watched := 6 }
    rfl (by decide)

lemma update_activity_success_cases (env : UpdateEnv) (act : JellyfinActivityE)
    (d : Nat) (s1 : Option UserAnimeListE)
    (h : update_anime_list_from_activity env act = (some d, s1)) :
    ∃ m ep X, act.mal_id = some m ∧ m ≠ 0 ∧
      act.episode_number = some ep ∧ ep ≠ 0 ∧
      env.userFound = true ∧ (∃ anime, env.anime = some anime) ∧ s1 = some X ∧
      (¬ ep > X.episodes_watched ∨
        completionOk act.completion_percentage = false) := by
  unfold update_anime_list_from_activity at h
  rcases hm : act.mal_id with _ | m <;> rw [hm] at h
  · simp at h
  · rcases hep : act.episode_number with _ | ep <;> rw [hep] at h
    · simp at h
    · dsimp only at h
      by_cases hg : m = 0 ∨ ep = 0
      · rw [if_pos hg] at h
        simp at h
      · rw [if_neg hg] at h
        push_neg at hg
        by_cases huf : env.userFound
        · rw [if_neg (by simp [huf])] at h
          rcases hz : env.anime with _ | anime <;> rw [hz] at h
          · simp at h
          · dsimp only at h
            by_cases hgt : ep > (env.entry.getD
                { status := some "watching", episodes_watched := 0 }).episodes_watched
            · rw [if_pos hgt] at h
              by_cases hco : completionOk act.completion_percentage
              · rw [if_pos hco] at h
                by_cases hpo : env.progressUpdateOk
                · rw [if_pos hpo] at h
                  rcases hte : anime.episodes with _ | total <;> rw [hte] at h <;>
                    dsimp only at h
                  · injection h with hd hs
                    exact ⟨m, ep, _, rfl, hg.1, rfl, hg.2, huf, ⟨anime, rfl⟩, hs.symm,
                      Or.inl (by simp)⟩
                  · by_cases hcm : total ≠ 0 ∧ ep ≥ total
                    · rw [if_pos hcm] at h
                      by_cases hso : env.statusUpdateOk
                      · rw [if_pos hso] at h
                        injection h with hd hs
                        exact ⟨m, ep, _, rfl, hg.1, rfl, hg.2, huf, ⟨anime, rfl⟩, hs.symm,
                          Or.inl (by simp)⟩
                      · rw [if_neg hso] at h
                        simp at h
                    · rw [if_neg hcm] at h
                      injection h with hd hs
                      exact ⟨m, ep, _, rfl, hg.1, rfl, hg.2, huf, ⟨anime, rfl⟩, hs.symm,
                        Or.inl (by simp)⟩
                · rw [if_neg hpo] at h
                  simp at h
              · rw [if_neg hco] at h
                injection h with hd hs
                exact ⟨m, ep, _, rfl, hg.1, rfl, hg.2, huf, ⟨anime, rfl⟩, hs.symm,
                  Or.inr (by simpa using hco)⟩
            · rw [if_neg hgt] at h
              injection h with hd hs
              exact ⟨m, ep, _, rfl, hg.1, rfl, hg.2, huf, ⟨anime, rfl⟩, hs.symm,
                Or.inl hgt⟩
        · rw [if_pos (by simpa using huf)] at h
          simp at h

lemma update_activity_noop (env : UpdateEnv) (act : JellyfinActivityE)
    (m ep : Nat) (X : UserAnimeListE)
    (hm : act.mal_id = some m) (hm0 : m ≠ 0)
    (hep : act.episode_number = some ep) (hep0 : ep ≠ 0)
    (hu : env.userFound = true) (ha : ∃ anime, env.anime = some anime)
    (he : env.entry = some X)
    (hstop : ¬ ep > X.episodes_watched ∨
      completionOk act.completion_percentage = false) :
    update_anime_list_from_activity env act = (some 0, some X) := by
  obtain ⟨anime, ha⟩ := ha
  unfold update_anime_list_from_activity
  rw [hm, hep]
  dsimp only
  rw [if_neg (by simp [hm0, hep0])]
  rw [if_neg (by simp [hu])]
  rw [ha]
  dsimp only
  rw [he]
  simp only [Option.getD_some]
  rcases hstop with hs | hs
  · rw [if_neg hs]
  · by_cases hgt : ep > X.episodes_watched
    · rw [if_pos hgt, if_neg (by simp [hs])]
    · rw [if_neg hgt]

/-- C2: webhook replay idempotence.  If applying an activity succeeded
(returned a non-None delta) producing list-entry state s1, then applying the
same activity again against s1 — with the same user and anime lookups but any
outcomes for the fallible sub-calls — changes nothing and reports a delta of
0: the advance guard's strict comparison makes a replayed webhook a no-op. -/
theorem C2_webhook_replay_idempotent (env env2 : UpdateEnv)
    (act : JellyfinActivityE) (d : Nat) (s1 : Option UserAnimeListE)
    (h : update_anime_list_from_activity env act = (some d, s1))
    (hu : env2.userFound = env.userFound)
    (ha : env2.anime = env.anime)
    (he : env2.entry = s1) :
    update_anime_list_from_activity env2 act = (some 0, s1) := by
  obtain ⟨m, ep, X, hm, hm0, hep, hep0, huf, ⟨anime, hz⟩, hs1, hstop⟩ :=
    update_activity_success_cases env act d s1 h
  subst hs1
  exact update_activity_noop env2 act m ep X hm hm0 hep hep0
    (hu.trans huf) ⟨anime, ha.trans hz⟩ he hstop

/-- C2 witness: episode 6 with no completion percentage advances a
5-episode entry to 6; replaying the same activity against the updated entry
reports a delta of 0 and leaves the entry unchanged. -/
theorem C2_webhook_replay_idempotent_witness :
    update_anime_list_from_activity
      { userFound := true, anime := some ⟨100, none⟩,
        entry := some { episodes_watched := 6 },
        progressUpdateOk := true, statusUpdateOk := true }
      { mal_id := some 100, episode_number := some 6 } =
    (some 0, some { episodes_watched := 6 }) :=
  C2_webhook_replay_idempotent
    { userFound := true, anime := some ⟨100, none⟩,
      entry := some { episodes_watched := 5 },
      progressUpdateOk := true, statusUpdateOk := true }
    { userFound := true, anime := some ⟨100, none⟩,
      entry := some { episodes_watched := 6 },
      progressUpdateOk := true, statusUpdateOk := true }
    { mal_id := some 100, episode_number := some 6 }
    1 (some { episodes_watched := 6 })
    (by decide) rfl rfl rfl

lemma completionOk_iff (o : Option ℚ) :
    completionOk o = true ↔ (o = none ∨ ∃ c, o = some c ∧ 80 ≤ c) := by
  cases o <;> simp [completionOk]

lemma update_activity_advances (env : UpdateEnv) (act : JellyfinActivityE)
    (m ep : Nat) (anime : AnimeE) (e0 : UserAnimeListE)
    (hm : act.mal_id = some m) (hm0 : m ≠ 0)
    (hep : act.episode_number = some ep) (hep0 : ep ≠ 0)
    (hu : env.userFound = true) (hz : env.anime = some anime)
    (he : env.entry = some e0) (hgt : ep > e0.episodes_watched)
    (hpo : env.progressUpdateOk = true) (hso : env.statusUpdateOk = true)
    (hco : completionOk act.completion_percentage = true) :
    ∃ e1, update_anime_list_from_activity env act =
      (some (ep - e0.episodes_watched), some e1) ∧ e1.episodes_watched = ep := by
  unfold update_anime_list_from_activity
  rw [hm, hep]
  dsimp only
  rw [if_neg (by simp [hm0, hep0]), if_neg (by simp [hu]), hz]
  dsimp only
  rw [he]
  simp only [Option.getD_some]
  rw [if_pos hgt, if_pos hco, if_pos hpo]
  rcases hte : anime.episodes with _ | total <;> dsimp only
  · exact ⟨_, rfl, rfl⟩
  · by_cases hcm : total ≠ 0 ∧ ep ≥ total
    · rw [if_pos hcm, if_pos hso]
      exact ⟨_, rfl, rfl⟩
    · rw [if_neg hcm]
      exact ⟨_, rfl, rfl⟩

/-- C4: completion threshold.  Under the advance guard (episode number
strictly above the current count, user, anime and entry present, sub-calls
succeeding), update_anime_list_from_activity advances progress exactly when
the activity's completion percentage is None or at least 80; when the
percentage is present and below 80 the entry is unchanged and the reported
delta is 0. -/
theorem C4_completion_threshold (env : UpdateEnv) (act : JellyfinActivityE)
    (m ep : Nat) (anime : AnimeE) (e0 : UserAnimeListE)
    (hm : act.mal_id = some m) (hm0 : m ≠ 0)
    (hep : act.episode_number = some ep) (hep0 : ep ≠ 0)
    (hu : env.userFound = true) (hz : env.anime = some anime)
    (he : env.entry = some e0) (hgt : ep > e0.episodes_watched)
    (hpo : env.progressUpdateOk = true) (hso : env.statusUpdateOk = true) :
    ((∃ e1, (update_anime_list_from_activity env act).2 = some e1 ∧
        e1.episodes_watched = ep ∧
        (update_anime_list_from_activity env act).1 =
          some (ep - e0.episodes_watched)) ↔
      (act.completion_percentage = none ∨
        ∃ c, act.completion_percentage = some c ∧ 80 ≤ c)) ∧
      ((∃ c, act.completion_percentage = some c ∧ c < 80) →
        update_anime_list_from_activity env act = (some 0, some e0)) := by
  have hB : ∀ hco : completionOk act.completion_percentage = false,
      update_anime_list_from_activity env act = (some 0, some e0) := fun hco =>
    update_activity_noop env act m ep e0 hm hm0 hep hep0 hu ⟨anime, hz⟩ he
      (Or.inr hco)
  constructor
  · constructor
    · rintro ⟨e1, _, _, hd⟩
      by_contra hcond
      have hco : completionOk act.completion_percentage = false := by
        cases hb : completionOk act.completion_percentage
        · rfl
        · exact absurd ((completionOk_iff _).mp hb) hcond
      rw [hB hco] at hd
      simp at hd
      omega
    · intro hcond
      obtain ⟨e1, hu1, he1⟩ := update_activity_advances env act m ep anime e0
        hm hm0 hep hep0 hu hz he hgt hpo hso ((completionOk_iff _).mpr hcond)
      exact ⟨e1, by rw [hu1], he1, by rw [hu1]⟩
  · rintro ⟨c, hc, hlt⟩
    refine hB ?_
    simp [completionOk, hc]
    linarith

/-- C4 witness: with a 5-episode entry and episode number 6, a completion
percentage of exactly 80 advances the entry to 6 with delta 1, while 79.99
leaves the entry at 5 with delta 0. -/
theorem C4_completion_threshold_witness :
    (∃ e1, (update_anime_list_from_activity
        { userFound := true, anime := some ⟨100, none⟩,
          entry := some { episodes_watched := 5 },
          progressUpdateOk := true, statusUpdateOk := true }
        { mal_id := some 100, episode_number := some 6,
          completion_percentage := some 80 }).2 = some e1 ∧
      e1.episodes_watched = 6 ∧
      (update_anime_list_from_activity
        { userFound := true, anime := some ⟨100, none⟩,
          entry := some { episodes_watched := 5 },
          progressUpdateOk := true, statusUpdateOk := true }
        { mal_id := some 100, episode_number := some 6,
          completion_percentage := some 80 }).1 = some (6 - 5)) ∧
      update_anime_list_from_activity
        { userFound := true, anime := some ⟨100, none⟩,
          entry := some { episodes_watched := 5 },
          progressUpdateOk := true, statusUpdateOk := true }
        { mal_id := some 100, episode_number := some 6,
          completion_percentage := some (7999/100) } =
        (some 0, some { episodes_watched := 5 }) := by
  constructor
  · exact ((C4_completion_threshold _ _ 100 6 ⟨100, none⟩ { episodes_watched := 5 }
      rfl (by decide) rfl (by decide) rfl rfl rfl (by decide) rfl rfl).1).mpr
      (Or.inr ⟨80, rfl, by norm_num⟩)
  · exact (C4_completion_threshold _ _ 100 6 ⟨100, none⟩ { episodes_watched := 5 }
      rfl (by decide) rfl (by decide) rfl rfl rfl (by decide) rfl rfl).2
      ⟨7999/100, rfl, by norm_num⟩

/-- C5: for every existing entry, every update and every outcome of the
remote push, update_anime_status returns successfully with the locally
updated entry; the local commit event strictly precedes the push attempt in
the trace, and a push failure appears only as a trailing warning event — it
neither rolls back the local update nor makes the call raise. -/
theorem C5_local_commit_before_push_failure_nonfatal
    (e : UserAnimeListE) (u : AnimeListItemUpdate) (push : Except String Unit) :
    update_anime_status (some e) u true true push =
      .ok (applyItemUpdate e u,
        PushEv.commitLocal :: PushEv.pushAttempt ::
          (match push with
            | .ok _ => [PushEv.pushOk]
            | .error msg => [PushEv.pushWarn msg])) := by
  cases push <;> rfl

/-- C10 (counterexample): a table whose single row has confidence score 0.0
has one scored row, yet get_mapping_statistics returns None for the mean —
the source's truthiness test (if avg_confidence_score) treats the mean 0.0
like the no-scored-rows case, so None is not returned only when there are no
scored rows. -/
theorem C10_statistics_mean_counterexample :
    (List.filterMap (fun m => m.confidence_score)
        [{ anidb_id := 1, mal_id := some 10, confidence_score := some 0 :
          AniDBMappingE }] = [(0 : ℚ)]) ∧
      (get_mapping_statistics
        [{ anidb_id := 1, mal_id := some 10, confidence_score := some 0 }]
        ).average_confidence = none := by
  constructor
  · rfl
  · simp [get_mapping_statistics]

/-- C10 (amended): get_mapping_statistics returns the mean of the non-null
confidence scores rounded to 2 decimals, except that None is returned exactly
when there are no scored rows or the mean is 0 (equivalently the scores sum
to 0), because the source guards the rounding with Python truthiness of the
mean rather than an is-not-None test. -/
theorem C10_statistics_mean (db : List AniDBMappingE) :
    ((get_mapping_statistics db).average_confidence =
        if db.filterMap (fun m => m.confidence_score) = [] ∨
            (db.filterMap (fun m => m.confidence_score)).sum = 0 then none
        else some (pyRound2 ((db.filterMap (fun m => m.confidence_score)).sum /
          ((db.filterMap (fun m => m.confidence_score)).length : ℚ)))) ∧
      ((get_mapping_statistics db).average_confidence = none ↔
        (db.filterMap (fun m => m.confidence_score) = [] ∨
          (db.filterMap (fun m => m.confidence_score)).sum = 0)) := by
  have hmain : (get_mapping_statistics db).average_confidence =
      if db.filterMap (fun m => m.confidence_score) = [] ∨
          (db.filterMap (fun m => m.confidence_score)).sum = 0 then none
      else some (pyRound2 ((db.filterMap (fun m => m.confidence_score)).sum /
        ((db.filterMap (fun m => m.confidence_score)).length : ℚ))) := by
    unfold get_mapping_statistics
    dsimp only
    by_cases h1 : db.filterMap (fun m => m.confidence_score) = []
    · simp [h1]
    · rw [if_pos h1]
      have hlen : ((db.filterMap (fun m => m.confidence_score)).length : ℚ) ≠ 0 := by
        have hl : (db.filterMap (fun m => m.confidence_score)).length ≠ 0 :=
          fun hl => h1 (List.length_eq_zero.mp hl)
        exact_mod_cast hl
      by_cases h2 : (db.filterMap (fun m => m.confidence_score)).sum = 0
      · have hz : (db.filterMap (fun m => m.confidence_score)).sum /
            ((db.filterMap (fun m => m.confidence_score)).length : ℚ) = 0 := by
          rw [h2, zero_div]
        simp [hz, h1, h2]
      · have hz : (db.filterMap (fun m => m.confidence_score)).sum /
            ((db.filterMap (fun m => m.confidence_score)).length : ℚ) ≠ 0 :=
          div_ne_zero h2 hlen
        simp [hz, h1, h2]
  refine ⟨hmain, ?_⟩
  rw [hmain]
  split_ifs with h
  · exact iff_of_true rfl h
  · exact iff_of_false (by simp) h

/-- C6 (counterexample): with a mapping row already present for AniDB id 7
(an unmapped placeholder, as a repeated webhook for the same unknown series
produces), create_mapping is not a silent no-op — it raises ValueError — and
process_webhook, whose placeholder creation hits that error, returns the
generic exception-handler failure ("Error processing webhook: ...") instead
of its normal no-mapping failure result. -/
theorem C6_placeholder_counterexample :
    (create_mapping
        [{ anidb_id := 7, title := some "T", source := "jellyfin_webhook" }]
        7 none (some "T") none "jellyfin_webhook" =
      Except.error "Mapping for AniDB ID already exists") ∧
      (process_webhook
        { userId := some 1, extractedAnidbId := some 7,
          mappings :=
            [{ anidb_id := 7, title := some "T", source := "jellyfin_webhook" }] }
        { series_title := some "T" }).1 =
      { success := false,
        message := "Error processing webhook: Mapping for AniDB ID already exists",
        errors := ["Mapping for AniDB ID already exists"] } := by
  constructor
  · rfl
  · rfl

/-- C6 (amended): for every external id that already has a mapping row,
create_mapping raises ValueError (and, returning only that error, leaves the
table unmodified); in the webhook path that reaches placeholder creation
(mapping row present but with no MAL id), the raised error is caught by the
top-level handler, so process_webhook still returns a structured failure —
but the generic "Error processing webhook" result with the exception text,
not the normal no-mapping failure — and the mapping table is returned
unchanged. -/
theorem C6_placeholder_existing_mapping (db : List AniDBMappingE) (aid : Nat)
    (mal_id : Option Nat) (title : Option String) (conf : Option ℚ)
    (src : String) (env : WebhookEnv) (p : WebhookPayloadE) (uid : Nat)
    (hex : (get_mapping_by_anidb_id db aid).isSome = true)
    (henv : env.mappings = db) (hu : env.userId = some uid)
    (ha : env.extractedAnidbId = some aid)
    (hnomal : get_mal_id_from_anidb_id db aid = none) :
    create_mapping db aid mal_id title conf src =
        Except.error "Mapping for AniDB ID already exists" ∧
      (process_webhook env p).2.2 = db ∧
      (process_webhook env p).1 =
        { success := false,
          message := "Error processing webhook: Mapping for AniDB ID already exists",
          errors := ["Mapping for AniDB ID already exists"] } := by
  obtain ⟨row, hrow⟩ := Option.isSome_iff_exists.mp hex
  have hcreate : ∀ ml t c s, create_mapping db aid ml t c s =
      Except.error "Mapping for AniDB ID already exists" := by
    intro ml t c s
    unfold create_mapping
    rw [hrow]
  refine ⟨hcreate mal_id title conf src, ?_, ?_⟩
  · unfold process_webhook
    rw [hu, ha, henv]
    dsimp only
    rw [hnomal]
    dsimp only
    rw [hcreate]
  · unfold process_webhook
    rw [hu, ha, henv]
    dsimp only
    rw [hnomal]
    dsimp only
    rw [hcreate]
    rfl

/-- C6 witness: instantiating the amended theorem at a one-row table holding
an unmapped placeholder for AniDB id 7. -/
theorem C6_placeholder_existing_mapping_witness :
    create_mapping
        [{ anidb_id := 7, title := some "T", source := "jellyfin_webhook" }]
        7 (some 100) (some "U") none "manual" =
      Except.error "Mapping for AniDB ID already exists" ∧
      (process_webhook
        { userId := some 1, extractedAnidbId := some 7,
          mappings :=
            [{ anidb_id := 7, title := some "T", source := "jellyfin_webhook" }] }
        { series_title := some "T" }).2.2 =
      [{ anidb_id := 7, title := some "T", source := "jellyfin_webhook" }] ∧
      (process_webhook
        { userId := some 1, extractedAnidbId := some 7,
          mappings :=
            [{ anidb_id := 7, title := some "T", source := "jellyfin_webhook" }] }
        { series_title := some "T" }).1 =
      { success := false,
        message := "Error processing webhook: Mapping for AniDB ID already exists",
        errors := ["Mapping for AniDB ID already exists"] } :=
  C6_placeholder_existing_mapping
    [{ anidb_id := 7, title := some "T", source := "jellyfin_webhook" }]
    7 (some 100) (some "U") none "manual"
    { userId := some 1, extractedAnidbId := some 7,
      mappings :=
        [{ anidb_id := 7, title := some "T", source := "jellyfin_webhook" }] }
    { series_title := some "T" } 1
    rfl rfl rfl rfl rfl

/-- C7: evaluation at the failing input.  A webhook whose user exists and
whose AniDB id 7 is mapped to MAL id 100, but whose anime has no local Anime
row, makes update_anime_list_from_activity fail (return None, applying no
progress); process_webhook nevertheless marks the stored activity processed
and reports success with 0 episodes updated, so the activity never stays
eligible for reprocess_failed_activities' processed = false scan. -/
theorem C7_processed_set_despite_failed_update :
    (update_anime_list_from_activity
        { userFound := true, anime := none, entry := none,
          progressUpdateOk := true, statusUpdateOk := true }
        { user_id := 1, anidb_id := some 7, mal_id := some 100,
          episode_number := some 6, completion_percentage := none,
          processed := false } = (none, none)) ∧
      (process_webhook
        { userId := some 1, extractedAnidbId := some 7,
          mappings := [{ anidb_id := 7, mal_id := some 100 }],
          anime := none, entry := none,
          progressUpdateOk := true, statusUpdateOk := true }
        { episode_number := some 6 }).2.1 =
        some { user_id := 1, anidb_id := some 7, mal_id := some 100,
               episode_number := some 6, completion_percentage := none,
               processed := true } ∧
      (process_webhook
        { userId := some 1, extractedAnidbId := some 7,
          mappings := [{ anidb_id := 7, mal_id := some 100 }],
          anime := none, entry := none,
          progressUpdateOk := true, statusUpdateOk := true }
        { episode_number := some 6 }).1 =
        { success := true, message := "Webhook processed successfully",
          anidb_id := some 7, mal_id := some 100, episodes_updated := 0 } := by
  refine ⟨rfl, rfl, rfl⟩

lemma fetch_loop_alwaysFailing :
    ∀ fuel t offset acc, fetch_loop alwaysFailing fuel t offset acc = none := by
  intro fuel
  induction fuel with
  | zero => intro t offset acc; rfl
  | succ fuel ih =>
    intro t offset acc
    unfold fetch_loop alwaysFailing
    exact ih (t + 1) offset acc

lemma fetch_loop_errorsThenEmpty_succeeds :
    ∀ (d j offset acc : Nat),
      fetch_loop (errorsThenEmpty (j + d)) (d + 1) j offset acc = some acc := by
  intro d
  induction d with
  | zero =>
    intro j offset acc
    unfold fetch_loop errorsThenEmpty
    simp
  | succ d ih =>
    intro j offset acc
    have hlt : j < j + (d + 1) := by omega
    have hrw : j + (d + 1) = (j + 1) + d := by omega
    unfold fetch_loop errorsThenEmpty
    rw [if_pos hlt]
    have := ih (j + 1) offset acc
    rw [hrw]
    simpa [errorsThenEmpty] using this

lemma fetch_loop_errorsThenEmpty_fuel_short :
    ∀ (d j offset acc : Nat),
      fetch_loop (errorsThenEmpty (j + d)) d j offset acc = none := by
  intro d
  induction d with
  | zero => intro j offset acc; rfl
  | succ d ih =>
    intro j offset acc
    have hlt : j < j + (d + 1) := by omega
    have hrw : j + (d + 1) = (j + 1) + d := by omega
    unfold fetch_loop errorsThenEmpty
    rw [if_pos hlt]
    have := ih (j + 1) offset acc
    rw [hrw]
    simpa [errorsThenEmpty] using this

/-- C8 (counterexample): on a persistently failing page the fetch loop never
finishes — for every amount of fuel the loop is still retrying — so the
remote-list fetch does not terminate for every sequence of page responses and
errors, contradicting the claim's bounded-retry assertion. -/
theorem C8_fetch_retry_counterexample : ¬ fetch_terminates alwaysFailing := by
  rintro ⟨fuel, h⟩
  rw [fetch_loop_alwaysFailing fuel 0 0 0] at h
  simp at h

/-- C8 (amended): the fetch layer retries a failing page with a delay but
without any cap (the service's max_retries is never consulted): for every k,
a page that fails k times and then returns an empty page completes on exactly
the (k+1)-th call — k+1 iterations suffice and k do not — so the number of
retries grows unboundedly with the failure count instead of being bounded. -/
theorem C8_fetch_retry_unbounded (k : Nat) :
    fetch_loop (errorsThenEmpty k) (k + 1) 0 0 0 = some 0 ∧
      fetch_loop (errorsThenEmpty k) k 0 0 0 = none := by
  constructor
  · simpa using fetch_loop_errorsThenEmpty_succeeds k 0 0 0
  · simpa using fetch_loop_errorsThenEmpty_fuel_short k 0 0 0

end Anime
